import Mathlib

/-!
Verification of the response-field extraction helpers of `dracclient/utils.py`
(python-dracclient).  The module parses values out of an already-parsed XML
element tree: element lookup by namespace-qualified tag, a nil-attribute
check, single- and multi-field text extraction, three derived readers over
the well-known `SetResult` / `RebootRequired` fields, a result-record
builder, and an integer-validation helper that appends to an error
accumulator.

The element tree is modelled as a tree of elements, each carrying a tag, a
namespace, optional text (Python's `elem.text` is `None` or a string), an
attribute mapping, and children.  Exceptions are modelled as an error type
returned through `Except`; an `AttributeError` raised by calling a method on
`None` (e.g. `None.strip()`) is the `attributeError` constructor, and an
unmapped dictionary key (`KeyError`) is `keyError`.
-/

/-- An XML element: namespace-qualified tag, optional text, attribute map
(keyed by the fully qualified attribute name, as ElementTree does), and
child elements. -/
inductive Element where
  | mk (tag : String) (ns : String) (text : Option String)
       (attrib : List (String × String)) (children : List Element)

def Element.tag : Element → String
  | .mk t _ _ _ _ => t

def Element.ns : Element → String
  | .mk _ n _ _ _ => n

def Element.text : Element → Option String
  | .mk _ _ x _ _ => x

def Element.attrib : Element → List (String × String)
  | .mk _ _ _ a _ => a

def Element.children : Element → List Element
  | .mk _ _ _ _ c => c

mutual

/-- Preorder (document-order) listing of an element together with all of its
descendants; used to model ElementTree's descendant axis. -/
def subtreeElem : Element → List Element
  | .mk t n x a kids => .mk t n x a kids :: subtreeForest kids

/-- Preorder (document-order) listing of a forest together with all
descendants. -/
def subtreeForest : List Element → List Element
  | [] => []
  | c :: cs => subtreeElem c ++ subtreeForest cs

end

/-- All proper descendants of `doc`, in document order: the scope of the
query `.//{namespace}item` built by `find_xml`. -/
def descendants (doc : Element) : List Element :=
  subtreeForest doc.children

/-- `find_xml(doc, item, namespace, find_all=True)`: all descendant elements
with the given tag and namespace, in document order. -/
def findall_xml (doc : Element) (item : String) (namespace_ : String) :
    List Element :=
  (descendants doc).filter (fun e => e.tag == item && e.ns == namespace_)

/-- `find_xml(doc, item, namespace)` (with `find_all=False`): the first such
descendant, or `None`. -/
def find_xml (doc : Element) (item : String) (namespace_ : String) :
    Option Element :=
  (findall_xml doc item namespace_).head?

def NS_XMLSchema_Instance : String :=
  "http://www.w3.org/2001/XMLSchema-instance"

/-- The fully qualified attribute name `'\x7b%s\x7dnil' % NS_XMLSchema_Instance`. -/
def nilAttrKey : String :=
  "\x7b" ++ NS_XMLSchema_Instance ++ "\x7d" ++ "nil"

/-- `elem.attrib.get(key)`: dictionary lookup returning `None` when absent. -/
def attribGet (e : Element) (key : String) : Option String :=
  (e.attrib.find? (fun p => p.1 == key)).map (fun p => p.2)

/-- `_is_attr_non_nil(elem)`:
`elem.attrib.get('\x7b%s\x7dnil' % NS_XMLSchema_Instance) != 'true'`. -/
def _is_attr_non_nil (e : Element) : Bool :=
  attribGet e nilAttrKey != some "true"

/-- The exceptions raised by the module (`dracclient.exceptions` classes are
opaque error signals), plus the two dynamic errors Python raises itself:
`attributeError` for a method call on `None` (such as `None.strip()` or
`None.lower()`, and `None.text` when a lookup returned no element) and
`keyError` for an unmapped dictionary key. -/
inductive DRACError where
  | missingResponseField (attr : String)
  | emptyResponseField (attr : String)
  | invalidParameterValue (reason : String)
  | attributeError
  | keyError (key : String)
deriving DecidableEq

/-- A Python value appearing in the `RebootRequired` enumeration or as a
caller-supplied override: a boolean or a string. -/
inductive PyVal where
  | bool (b : Bool)
  | str (s : String)
deriving DecidableEq

/-- Modelled from the spec: `dracclient/constants.py` is not under `src/`;
the spec fixes the allowed set of `is_reboot_required` values as
`{true, false, "optional"}` (`constants.RebootRequired.all()`). -/
def RebootRequired_all : List PyVal :=
  [PyVal.bool true, PyVal.bool false, PyVal.str "optional"]

/-- The module-level `REBOOT_REQUIRED` dictionary, as a partial lookup:
`'yes' → RebootRequired.true, 'no' → RebootRequired.false,
'optional' → RebootRequired.optional`; any other key is unmapped. -/
def REBOOT_REQUIRED (key : String) : Option PyVal :=
  if key == "yes" then some (PyVal.bool true)
  else if key == "no" then some (PyVal.bool false)
  else if key == "optional" then some (PyVal.str "optional")
  else none

/-- `s.lower()`: lower-case every character. -/
def pyLower (s : String) : String :=
  String.mk (s.data.map Char.toLower)

/-- `s.strip()`: remove leading and trailing whitespace. -/
def pyStrip (s : String) : String :=
  String.mk
    (((s.data.dropWhile Char.isWhitespace).reverse.dropWhile
        Char.isWhitespace).reverse)

def isPrefixList : List Char → List Char → Bool
  | [], _ => true
  | _ :: _, [] => false
  | a :: as, b :: bs => a == b && isPrefixList as bs

def containsSub (needle : List Char) : List Char → Bool
  | [] => isPrefixList needle []
  | c :: rest => isPrefixList needle (c :: rest) || containsSub needle rest

/-- `needle in hay` for Python strings: `needle` occurs as a contiguous
substring of `hay`. -/
def strContains (hay needle : String) : Bool :=
  containsSub needle.data hay.data

/-- `text.strip()` where `text` may be `None`: stripping `None` raises
`AttributeError`, otherwise surrounding whitespace is trimmed. -/
def textStrip : Option String → Except DRACError String
  | none => Except.error DRACError.attributeError
  | some s => Except.ok (pyStrip s)

/-- `get_wsman_resource_attr(doc, resource_uri, attr_name, nullable,
allow_missing)`.  Missing element: `None` if `allow_missing`, else
`DRACMissingResponseField`.  Non-nullable: `None` text raises
`DRACEmptyResponseField`, else the stripped text.  Nullable: a non-nil
element's text is stripped (`AttributeError` if the text is `None`), a nil
element falls through to an implicit `return None`. -/
def get_wsman_resource_attr (doc : Element) (resource_uri : String)
    (attr_name : String) (nullable : Bool) (allow_missing : Bool) :
    Except DRACError (Option String) :=
  match find_xml doc attr_name resource_uri with
  | none =>
      if allow_missing then Except.ok none
      else Except.error (DRACError.missingResponseField attr_name)
  | some item =>
      if !nullable then
        match item.text with
        | none => Except.error (DRACError.emptyResponseField attr_name)
        | some t => Except.ok (some (pyStrip t))
      else
        if _is_attr_non_nil item then
          (textStrip item.text).map some
        else
          Except.ok none

/-- The comprehension `[item.text.strip() for item in items]`: strips every
element's text left to right, propagating the first `AttributeError` from a
`None` text. -/
def stripAll : List Element → Except DRACError (List String)
  | [] => Except.ok []
  | i :: rest =>
      match textStrip i.text with
      | Except.error e => Except.error e
      | Except.ok s =>
          match stripAll rest with
          | Except.error e => Except.error e
          | Except.ok ss => Except.ok (s :: ss)

/-- `get_all_wsman_resource_attrs(doc, resource_uri, attr_name, nullable)`.
Non-nullable: the loop raises `DRACEmptyResponseField` when any element's
text is `None`, else the comprehension strips every element's text.
Nullable: the comprehension strips the text of every non-nil element
(raising `AttributeError` at a non-nil element whose text is `None`). -/
def get_all_wsman_resource_attrs (doc : Element) (resource_uri : String)
    (attr_name : String) (nullable : Bool) :
    Except DRACError (List String) :=
  let items := findall_xml doc attr_name resource_uri
  if !nullable then
    if items.any (fun i => i.text.isNone) then
      Except.error (DRACError.emptyResponseField attr_name)
    else
      stripAll items
  else
    stripAll (items.filter _is_attr_non_nil)

/-- `is_commit_required(doc, resource_uri)`:
`"pendingvalue" in find_xml(doc, 'SetResult', resource_uri).text.lower()`.
A missing element or `None` text raises `AttributeError`. -/
def is_commit_required (doc : Element) (resource_uri : String) :
    Except DRACError Bool :=
  match find_xml doc "SetResult" resource_uri with
  | none => Except.error DRACError.attributeError
  | some e =>
      match e.text with
      | none => Except.error DRACError.attributeError
      | some t => Except.ok (strContains (pyLower t) "pendingvalue")

/-- `is_reboot_required(doc, resource_uri)` (the legacy reader):
`find_xml(doc, 'RebootRequired', resource_uri).text.lower() == 'yes'`. -/
def is_reboot_required (doc : Element) (resource_uri : String) :
    Except DRACError Bool :=
  match find_xml doc "RebootRequired" resource_uri with
  | none => Except.error DRACError.attributeError
  | some e =>
      match e.text with
      | none => Except.error DRACError.attributeError
      | some t => Except.ok (pyLower t == "yes")

/-- `reboot_required(doc, resource_uri)`:
`REBOOT_REQUIRED[find_xml(doc, 'RebootRequired', resource_uri).text.lower()]`;
an unmapped key raises `KeyError`. -/
def reboot_required (doc : Element) (resource_uri : String) :
    Except DRACError PyVal :=
  match find_xml doc "RebootRequired" resource_uri with
  | none => Except.error DRACError.attributeError
  | some e =>
      match e.text with
      | none => Except.error DRACError.attributeError
      | some t =>
          match REBOOT_REQUIRED (pyLower t) with
          | some v => Except.ok v
          | none => Except.error (DRACError.keyError (pyLower t))

/-- The dictionary returned by `build_return_dict`. -/
structure ReturnDict where
  is_commit_required_field : PyVal
  is_reboot_required_field : PyVal
  commit_required_field : PyVal
deriving DecidableEq

/-- The `InvalidParameterValue` message built by `build_return_dict`
(`%s`-formatting of the offending value). -/
def pyValStr : PyVal → String
  | PyVal.bool true => "True"
  | PyVal.bool false => "False"
  | PyVal.str s => s

def invalidRebootMsg (v : PyVal) : String :=
  "is_reboot_required_value must be a member of the RebootRequired " ++
  "enumeration or None.  The passed value was " ++ pyValStr v

/-- The body of `build_return_dict` after its validation guard: for each of
the three keys use the override if not `None`, else compute it from the
document (`is_commit_required`, `reboot_required`, and the legacy
`is_reboot_required`, in that order); the first exception raised by a
computation propagates. -/
def buildResultRecord (doc : Element) (resource_uri : String)
    (is_commit_required_value : Option PyVal)
    (is_reboot_required_value : Option PyVal)
    (commit_required_value : Option PyVal) :
    Except DRACError ReturnDict :=
  match (match is_commit_required_value with
         | some v => Except.ok v
         | none =>
             match is_commit_required doc resource_uri with
             | Except.ok b => Except.ok (PyVal.bool b)
             | Except.error e => Except.error e) with
  | Except.error e => Except.error e
  | Except.ok icr =>
      match (match is_reboot_required_value with
             | some v => Except.ok v
             | none => reboot_required doc resource_uri) with
      | Except.error e => Except.error e
      | Except.ok irr =>
          match (match commit_required_value with
                 | some v => Except.ok v
                 | none =>
                     match is_reboot_required doc resource_uri with
                     | Except.ok b => Except.ok (PyVal.bool b)
                     | Except.error e => Except.error e) with
          | Except.error e => Except.error e
          | Except.ok cr => Except.ok ⟨icr, irr, cr⟩

/-- `build_return_dict(doc, resource_uri, is_commit_required_value,
is_reboot_required_value, commit_required_value)`: raise
`InvalidParameterValue` when the `is_reboot_required_value` override is
supplied and not in `RebootRequired.all()`, else assemble the record. -/
def build_return_dict (doc : Element) (resource_uri : String)
    (is_commit_required_value : Option PyVal)
    (is_reboot_required_value : Option PyVal)
    (commit_required_value : Option PyVal) :
    Except DRACError ReturnDict :=
  match is_reboot_required_value with
  | some v =>
      if v ∉ RebootRequired_all then
        Except.error (DRACError.invalidParameterValue (invalidRebootMsg v))
      else
        buildResultRecord doc resource_uri is_commit_required_value
          (some v) commit_required_value
  | none =>
      buildResultRecord doc resource_uri is_commit_required_value none
        commit_required_value

/-- `int(value)` for a string value succeeds when the string, after
stripping surrounding whitespace, is an optional sign followed by a
non-empty run of digits (digit-group underscores and non-ASCII digits are
not modelled). -/
def int_parses (s : String) : Bool :=
  let t := (pyStrip s).data
  let t := match t with
    | c :: rest => if c == '+' || c == '-' then rest else c :: rest
    | [] => []
  !t.isEmpty && t.all Char.isDigit

/-- `validate_integer_value(value, attr_name, error_msgs)`: the mutation of
the caller's `error_msgs` list is modelled by returning the new list.  A
`None` value appends `'<name>' is not supplied`; a value `int` cannot parse
appends `'<name>' is not an integer value`; a parsable value leaves the
list unchanged.  The function is total: it never raises. -/
def validate_integer_value (value : Option String) (attr_name : String)
    (error_msgs : List String) : List String :=
  match value with
  | none => error_msgs ++ ["\x27" ++ attr_name ++ "\x27 is not supplied"]
  | some v =>
      if int_parses v then error_msgs
      else error_msgs ++ ["\x27" ++ attr_name ++ "\x27 is not an integer value"]

/-! ## Claim theorems -/

/-- C3: on a document lacking the requested field, `get_wsman_resource_attr`
with `allow_missing=true` returns `None` and never raises, and with
`allow_missing=false` raises `DRACMissingResponseField` carrying the
attribute name; these are the only two behaviours, regardless of the
`nullable` flag. -/
theorem get_wsman_resource_attr_missing_field (doc : Element)
    (ruri name : String) (nullable : Bool)
    (h : find_xml doc name ruri = none) :
    get_wsman_resource_attr doc ruri name nullable true = Except.ok none ∧
    get_wsman_resource_attr doc ruri name nullable false =
      Except.error (DRACError.missingResponseField name) := by
  unfold get_wsman_resource_attr
  rw [h]
  exact ⟨rfl, rfl⟩

/-- Witness for C3: concrete empty document. -/
theorem get_wsman_resource_attr_missing_field_witness :
    get_wsman_resource_attr (Element.mk "root" "urn:r" none [] []) "urn:r"
        "Foo" false true = Except.ok none ∧
    get_wsman_resource_attr (Element.mk "root" "urn:r" none [] []) "urn:r"
        "Foo" false false =
      Except.error (DRACError.missingResponseField "Foo") :=
  get_wsman_resource_attr_missing_field (Element.mk "root" "urn:r" none [] [])
    "urn:r" "Foo" false rfl

/-- C4 counterexample: the claim says a present element whose text is empty
or absent makes `get_wsman_resource_attr` (nullable=false) fail with
`DRACEmptyResponseField`; but on an element whose text is the empty string
the code checks only `item.text is None`, so it returns the stripped empty
string instead of raising. -/
theorem get_wsman_resource_attr_empty_text_counterexample :
    find_xml (Element.mk "r" "urn:r" none []
        [Element.mk "A" "urn:r" (some "") [] []]) "A" "urn:r" =
      some (Element.mk "A" "urn:r" (some "") [] []) ∧
    get_wsman_resource_attr (Element.mk "r" "urn:r" none []
        [Element.mk "A" "urn:r" (some "") [] []]) "urn:r" "A" false false =
      Except.ok (some "") ∧
    get_wsman_resource_attr (Element.mk "r" "urn:r" none []
        [Element.mk "A" "urn:r" (some "") [] []]) "urn:r" "A" false false ≠
      Except.error (DRACError.emptyResponseField "A") := by
  refine ⟨rfl, rfl, ?_⟩
  intro h
  rw [show get_wsman_resource_attr (Element.mk "r" "urn:r" none []
        [Element.mk "A" "urn:r" (some "") [] []]) "urn:r" "A" false false =
      Except.ok (some "") from rfl] at h
  exact Except.noConfusion h

/-- C4 (amended): for every document in which the requested field's element
is present, `get_wsman_resource_attr` with `nullable=false` fails with
`DRACEmptyResponseField` exactly when the element's text is absent (`None`);
when the text is present it returns it with surrounding whitespace trimmed
(so text `"  v  "` yields `"v"`, and empty-string text yields `""`). -/
theorem get_wsman_resource_attr_non_nullable (doc : Element)
    (ruri name : String) (am : Bool) (e : Element)
    (hfind : find_xml doc name ruri = some e) :
    (e.text = none →
      get_wsman_resource_attr doc ruri name false am =
        Except.error (DRACError.emptyResponseField name)) ∧
    (∀ t, e.text = some t →
      get_wsman_resource_attr doc ruri name false am =
        Except.ok (some (pyStrip t))) := by
  constructor
  · intro h
    simp [get_wsman_resource_attr, hfind, h]
  · intro t h
    simp [get_wsman_resource_attr, hfind, h]

/-- Witness for C4 (amended): text `"  v  "` yields `"v"`. -/
theorem get_wsman_resource_attr_non_nullable_witness :
    get_wsman_resource_attr (Element.mk "r" "urn:r" none []
        [Element.mk "A" "urn:r" (some "  v  ") [] []]) "urn:r" "A"
      false false = Except.ok (some "v") :=
  (get_wsman_resource_attr_non_nullable
      (Element.mk "r" "urn:r" none []
        [Element.mk "A" "urn:r" (some "  v  ") [] []])
      "urn:r" "A" false (Element.mk "A" "urn:r" (some "  v  ") [] [])
      rfl).2 "  v  " rfl

/-- C7: for every document in which the requested field's element is
present, `get_wsman_resource_attr` with `nullable=true` returns `None`
(no error) when the element is marked nil, and returns the element's
trimmed text when the element is non-nil and has text. -/
theorem get_wsman_resource_attr_nullable (doc : Element)
    (ruri name : String) (am : Bool) (e : Element)
    (hfind : find_xml doc name ruri = some e) :
    (_is_attr_non_nil e = false →
      get_wsman_resource_attr doc ruri name true am = Except.ok none) ∧
    (∀ t, e.text = some t → _is_attr_non_nil e = true →
      get_wsman_resource_attr doc ruri name true am =
        Except.ok (some (pyStrip t))) := by
  constructor
  · intro h
    simp [get_wsman_resource_attr, hfind, h]
  · intro t ht hn
    simp [get_wsman_resource_attr, hfind, hn, ht, textStrip, Except.map]

/-- Witness for C7: a nil-marked element yields `None`; a non-nil element
with text `"x"` yields `"x"`. -/
theorem get_wsman_resource_attr_nullable_witness :
    get_wsman_resource_attr (Element.mk "r" "urn:r" none []
        [Element.mk "A" "urn:r" (some "z") [(nilAttrKey, "true")] []])
      "urn:r" "A" true false = Except.ok none ∧
    get_wsman_resource_attr (Element.mk "r" "urn:r" none []
        [Element.mk "A" "urn:r" (some "x") [] []]) "urn:r" "A" true false =
      Except.ok (some "x") :=
  ⟨(get_wsman_resource_attr_nullable
      (Element.mk "r" "urn:r" none []
        [Element.mk "A" "urn:r" (some "z") [(nilAttrKey, "true")] []])
      "urn:r" "A" false
      (Element.mk "A" "urn:r" (some "z") [(nilAttrKey, "true")] [])
      rfl).1 rfl,
   (get_wsman_resource_attr_nullable
      (Element.mk "r" "urn:r" none []
        [Element.mk "A" "urn:r" (some "x") [] []])
      "urn:r" "A" false (Element.mk "A" "urn:r" (some "x") [] [])
      rfl).2 "x" rfl rfl⟩

/-- C10: with `nullable=true`, when the found element is not marked nil but
has no text at all, `get_wsman_resource_attr` raises an attribute-access
error (`None.strip()`); it returns neither `None` nor
`DRACEmptyResponseField` — that guard applies only on the
`nullable=false` path. -/
theorem get_wsman_resource_attr_nullable_no_text (doc : Element)
    (ruri name : String) (am : Bool) (e : Element)
    (hfind : find_xml doc name ruri = some e)
    (hnonnil : _is_attr_non_nil e = true) (htext : e.text = none) :
    get_wsman_resource_attr doc ruri name true am =
      Except.error DRACError.attributeError ∧
    get_wsman_resource_attr doc ruri name true am ≠ Except.ok none ∧
    get_wsman_resource_attr doc ruri name true am ≠
      Except.error (DRACError.emptyResponseField name) := by
  have h : get_wsman_resource_attr doc ruri name true am =
      Except.error DRACError.attributeError := by
    simp [get_wsman_resource_attr, hfind, hnonnil, htext, textStrip,
      Except.map]
  refine ⟨h, ?_, ?_⟩ <;> rw [h]
  · exact fun hh => Except.noConfusion hh
  · intro hh
    injection hh with hh2
    exact DRACError.noConfusion hh2

/-- Witness for C10: a non-nil element with no text. -/
theorem get_wsman_resource_attr_nullable_no_text_witness :
    get_wsman_resource_attr (Element.mk "r" "urn:r" none []
        [Element.mk "B" "urn:r" none [] []]) "urn:r" "B" true false =
      Except.error DRACError.attributeError :=
  (get_wsman_resource_attr_nullable_no_text
      (Element.mk "r" "urn:r" none [] [Element.mk "B" "urn:r" none [] []])
      "urn:r" "B" false (Element.mk "B" "urn:r" none [] [])
      rfl rfl rfl).1

/-- C5: `validate_integer_value` never raises: a `None` value appends
`'<name>' is not supplied` to the caller's accumulator, an unparsable value
appends `'<name>' is not an integer value`, and a value that parses as an
integer (e.g. `"42"`) leaves the accumulator unchanged.  Failure is
communicated only by appending to the accumulator; no other value is
returned. -/
theorem validate_integer_value_spec :
    (∀ (value : Option String) (name : String) (msgs : List String),
      validate_integer_value value name msgs =
        msgs ++ (match value with
          | none => ["\x27" ++ name ++ "\x27 is not supplied"]
          | some v =>
              if int_parses v then []
              else ["\x27" ++ name ++ "\x27 is not an integer value"])) ∧
    (∀ msgs : List String, validate_integer_value none "port" msgs =
      msgs ++ ["\x27port\x27 is not supplied"]) ∧
    (∀ msgs : List String, validate_integer_value (some "abc") "port" msgs =
      msgs ++ ["\x27port\x27 is not an integer value"]) ∧
    (∀ msgs : List String,
      validate_integer_value (some "42") "port" msgs = msgs) := by
  refine ⟨?_, ?_, ?_, ?_⟩
  · intro value name msgs
    cases value with
    | none => rfl
    | some v =>
        by_cases h : int_parses v = true
        · simp [validate_integer_value, h]
        · simp only [Bool.not_eq_true] at h
          simp [validate_integer_value, h]
  · intro msgs; rfl
  · intro msgs; rfl
  · intro msgs; rfl

/-- C8: `_is_attr_non_nil` returns `true` unless the element carries an
attribute named `nil` in the XMLSchema-instance namespace whose value is
exactly the string `"true"` (case-sensitive); an absent attribute, or a
value such as `"True"` or `"false"`, makes the element non-nil. -/
theorem is_attr_non_nil_spec :
    (∀ e : Element, _is_attr_non_nil e = false ↔
      attribGet e nilAttrKey = some "true") ∧
    _is_attr_non_nil (Element.mk "a" "urn:r" none [] []) = true ∧
    _is_attr_non_nil
      (Element.mk "a" "urn:r" none [(nilAttrKey, "True")] []) = true ∧
    _is_attr_non_nil
      (Element.mk "a" "urn:r" none [(nilAttrKey, "false")] []) = true ∧
    _is_attr_non_nil
      (Element.mk "a" "urn:r" none [(nilAttrKey, "true")] []) = false := by
  refine ⟨?_, rfl, rfl, rfl, rfl⟩
  intro e
  simp [_is_attr_non_nil]

/-- C9: on a document whose `RebootRequired` field is present with text,
`reboot_required` maps the lower-cased text through the fixed table
`yes → true, no → false, optional → "optional"`, and any other text raises
a lookup failure (`KeyError`) rather than returning normally. -/
theorem reboot_required_table (doc : Element) (ruri : String) (e : Element)
    (t : String) (hfind : find_xml doc "RebootRequired" ruri = some e)
    (htext : e.text = some t) :
    reboot_required doc ruri =
      (match REBOOT_REQUIRED (pyLower t) with
       | some v => Except.ok v
       | none => Except.error (DRACError.keyError (pyLower t))) ∧
    (pyLower t = "yes" →
      reboot_required doc ruri = Except.ok (PyVal.bool true)) ∧
    (pyLower t = "no" →
      reboot_required doc ruri = Except.ok (PyVal.bool false)) ∧
    (pyLower t = "optional" →
      reboot_required doc ruri = Except.ok (PyVal.str "optional")) ∧
    (pyLower t ≠ "yes" → pyLower t ≠ "no" → pyLower t ≠ "optional" →
      reboot_required doc ruri =
        Except.error (DRACError.keyError (pyLower t))) := by
  have hmain : reboot_required doc ruri =
      (match REBOOT_REQUIRED (pyLower t) with
       | some v => Except.ok v
       | none => Except.error (DRACError.keyError (pyLower t))) := by
    simp only [reboot_required, hfind, htext]
  refine ⟨hmain, ?_, ?_, ?_, ?_⟩
  · intro h; rw [hmain, h]; rfl
  · intro h; rw [hmain, h]; rfl
  · intro h; rw [hmain, h]; rfl
  · intro h1 h2 h3
    rw [hmain]
    have hr : REBOOT_REQUIRED (pyLower t) = none := by
      simp [REBOOT_REQUIRED, h1, h2, h3]
    rw [hr]

/-- Witness for C9: text `"Yes"` (mixed case) maps to `true`. -/
theorem reboot_required_table_witness :
    reboot_required (Element.mk "r" "urn:r" none []
        [Element.mk "RebootRequired" "urn:r" (some "Yes") [] []]) "urn:r" =
      Except.ok (PyVal.bool true) :=
  (reboot_required_table
      (Element.mk "r" "urn:r" none []
        [Element.mk "RebootRequired" "urn:r" (some "Yes") [] []])
      "urn:r" (Element.mk "RebootRequired" "urn:r" (some "Yes") [] [])
      "Yes" rfl rfl).2.1 rfl

lemma stripAll_ok (l : List Element) (h : ∀ e ∈ l, e.text ≠ none) :
    stripAll l =
      Except.ok (l.map (fun i => pyStrip (i.text.getD ""))) := by
  induction l with
  | nil => rfl
  | cons a as ih =>
      obtain ⟨t, ht⟩ :=
        Option.ne_none_iff_exists'.mp (h a (List.mem_cons_self a as))
      have ih2 := ih (fun e he => h e (List.mem_cons_of_mem a he))
      simp [stripAll, ht, textStrip, ih2]

lemma stripAll_err (l : List Element) (h : ∃ e ∈ l, e.text = none) :
    stripAll l = Except.error DRACError.attributeError := by
  induction l with
  | nil => simp at h
  | cons a as ih =>
      rcases h with ⟨e, he, hnone⟩
      rcases List.mem_cons.mp he with heq | hmem
      · subst heq
        simp [stripAll, hnone, textStrip]
      · cases ht : a.text with
        | none => simp [stripAll, ht, textStrip]
        | some t =>
            have := ih ⟨e, hmem, hnone⟩
            simp [stripAll, ht, textStrip, this]

/-- C6 counterexample: the claim says an element with empty text makes
`get_all_wsman_resource_attrs` (nullable=false) raise
`DRACEmptyResponseField`, and that the nullable=true path raises no error;
but the code checks only `item.text is None`, so empty-string text is
returned as `""`, and a non-nil element with no text at all makes the
nullable=true comprehension raise an attribute-access error. -/
theorem get_all_wsman_resource_attrs_counterexample :
    findall_xml (Element.mk "r" "urn:r" none []
        [Element.mk "X" "urn:r" (some "") [] []]) "X" "urn:r" =
      [Element.mk "X" "urn:r" (some "") [] []] ∧
    get_all_wsman_resource_attrs (Element.mk "r" "urn:r" none []
        [Element.mk "X" "urn:r" (some "") [] []]) "urn:r" "X" false =
      Except.ok [""] ∧
    get_all_wsman_resource_attrs (Element.mk "r" "urn:r" none []
        [Element.mk "X" "urn:r" (some "") [] []]) "urn:r" "X" false ≠
      Except.error (DRACError.emptyResponseField "X") ∧
    get_all_wsman_resource_attrs (Element.mk "r" "urn:r" none []
        [Element.mk "Y" "urn:r" none [] []]) "urn:r" "Y" true =
      Except.error DRACError.attributeError := by
  refine ⟨rfl, rfl, ?_, rfl⟩
  intro h
  rw [show get_all_wsman_resource_attrs (Element.mk "r" "urn:r" none []
        [Element.mk "X" "urn:r" (some "") [] []]) "urn:r" "X" false =
      Except.ok [""] from rfl] at h
  exact Except.noConfusion h

/-- C6 (amended): `get_all_wsman_resource_attrs` with `nullable=false`
fails with `DRACEmptyResponseField` exactly when some matching element's
text is absent (`None`), else returns the trimmed text of every matching
element in document order (empty-string text yields `""`); with
`nullable=true` it omits nil-marked elements and returns the trimmed text
of the remaining elements in document order provided each has text — no
error even for an empty result — while a non-nil element with no text
raises an attribute-access error. -/
theorem get_all_wsman_resource_attrs_spec (doc : Element)
    (ruri name : String) :
    ((∃ e ∈ findall_xml doc name ruri, e.text = none) →
      get_all_wsman_resource_attrs doc ruri name false =
        Except.error (DRACError.emptyResponseField name)) ∧
    ((∀ e ∈ findall_xml doc name ruri, e.text ≠ none) →
      get_all_wsman_resource_attrs doc ruri name false =
        Except.ok ((findall_xml doc name ruri).map
          (fun i => pyStrip (i.text.getD "")))) ∧
    ((∀ e ∈ (findall_xml doc name ruri).filter _is_attr_non_nil,
        e.text ≠ none) →
      get_all_wsman_resource_attrs doc ruri name true =
        Except.ok (((findall_xml doc name ruri).filter
          _is_attr_non_nil).map (fun i => pyStrip (i.text.getD "")))) ∧
    ((∃ e ∈ (findall_xml doc name ruri).filter _is_attr_non_nil,
        e.text = none) →
      get_all_wsman_resource_attrs doc ruri name true =
        Except.error DRACError.attributeError) := by
  refine ⟨?_, ?_, ?_, ?_⟩
  · intro h
    have hany : (findall_xml doc name ruri).any
        (fun i => i.text.isNone) = true := by
      rcases h with ⟨e, he, hnone⟩
      exact List.any_eq_true.mpr ⟨e, he, by simp [hnone]⟩
    simp [get_all_wsman_resource_attrs, hany]
  · intro h
    have hany : (findall_xml doc name ruri).any
        (fun i => i.text.isNone) = false := by
      rw [List.any_eq_false]
      intro e he
      simp [Option.isNone_iff_eq_none]
      exact h e he
    simp [get_all_wsman_resource_attrs, hany, stripAll_ok _ h]
  · intro h
    simp [get_all_wsman_resource_attrs, stripAll_ok _ h]
  · intro h
    simp [get_all_wsman_resource_attrs, stripAll_err _ h]

/-- Witness for C6 (amended): two elements with padded text are trimmed in
document order. -/
theorem get_all_wsman_resource_attrs_spec_witness :
    get_all_wsman_resource_attrs (Element.mk "r" "urn:r" none []
        [Element.mk "A" "urn:r" (some "  a ") [] [],
         Element.mk "A" "urn:r" (some " b  ") [] []]) "urn:r" "A" false =
      Except.ok ["a", "b"] :=
  (get_all_wsman_resource_attrs_spec
      (Element.mk "r" "urn:r" none []
        [Element.mk "A" "urn:r" (some "  a ") [] [],
         Element.mk "A" "urn:r" (some " b  ") [] []])
      "urn:r" "A").2.1 (by decide)

lemma is_commit_required_error_shape (doc : Element) (ruri : String)
    (err : DRACError)
    (h : is_commit_required doc ruri = Except.error err) :
    err = DRACError.attributeError := by
  unfold is_commit_required at h
  split at h
  · injection h with h2
    exact h2.symm
  · split at h
    · injection h with h2
      exact h2.symm
    · exact Except.noConfusion h

lemma is_reboot_required_error_shape (doc : Element) (ruri : String)
    (err : DRACError)
    (h : is_reboot_required doc ruri = Except.error err) :
    err = DRACError.attributeError := by
  unfold is_reboot_required at h
  split at h
  · injection h with h2
    exact h2.symm
  · split at h
    · injection h with h2
      exact h2.symm
    · exact Except.noConfusion h

lemma reboot_required_error_shape (doc : Element) (ruri : String)
    (err : DRACError)
    (h : reboot_required doc ruri = Except.error err) :
    err = DRACError.attributeError ∨ ∃ k, err = DRACError.keyError k := by
  unfold reboot_required at h
  split at h
  · injection h with h2
    exact Or.inl h2.symm
  · split at h
    · injection h with h2
      exact Or.inl h2.symm
    · split at h
      · exact Except.noConfusion h
      · injection h with h2
        exact Or.inr ⟨_, h2.symm⟩

lemma buildResultRecord_error_shape (doc : Element) (ruri : String)
    (icr irr cr : Option PyVal) (err : DRACError)
    (h : buildResultRecord doc ruri icr irr cr = Except.error err) :
    is_commit_required doc ruri = Except.error err ∨
    reboot_required doc ruri = Except.error err ∨
    is_reboot_required doc ruri = Except.error err := by
  rcases icr with _ | w <;> rcases irr with _ | v <;> rcases cr with _ | u <;>
    cases h1 : is_commit_required doc ruri <;>
    cases h2 : reboot_required doc ruri <;>
    cases h3 : is_reboot_required doc ruri <;>
    simp_all [buildResultRecord]

/-- C1: with no overrides, `build_return_dict` fills `is_commit_required`
from `is_commit_required` (SetResult text, lower-cased, contains
`"pendingvalue"`), `is_reboot_required` from `reboot_required` (the
three-way `REBOOT_REQUIRED` table) and the legacy `commit_required` key
from `is_reboot_required` (RebootRequired text, lower-cased, equals
`"yes"`), propagating the first extraction error; in particular, on a
document with `SetResult` text `"pendingValue"` and `RebootRequired` text
`"No"` it returns `{is_commit_required: true, is_reboot_required: false,
commit_required: false}`. -/
theorem build_return_dict_no_overrides :
    (∀ (doc : Element) (ruri : String),
      build_return_dict doc ruri none none none =
        match is_commit_required doc ruri with
        | Except.error e => Except.error e
        | Except.ok a =>
            match reboot_required doc ruri with
            | Except.error e => Except.error e
            | Except.ok b =>
                match is_reboot_required doc ruri with
                | Except.error e => Except.error e
                | Except.ok c =>
                    Except.ok ⟨PyVal.bool a, b, PyVal.bool c⟩) ∧
    build_return_dict (Element.mk "root" "urn:r" none []
        [Element.mk "SetResult" "urn:r" (some "pendingValue") [] [],
         Element.mk "RebootRequired" "urn:r" (some "No") [] []])
      "urn:r" none none none =
      Except.ok ⟨PyVal.bool true, PyVal.bool false, PyVal.bool false⟩ := by
  constructor
  · intro doc ruri
    show buildResultRecord doc ruri none none none = _
    cases h1 : is_commit_required doc ruri <;>
      cases h2 : reboot_required doc ruri <;>
        cases h3 : is_reboot_required doc ruri <;>
          simp [buildResultRecord, h1, h2, h3]
  · rfl

/-- C2: `build_return_dict` raises `InvalidParameterValue` if and only if
the `is_reboot_required_value` override is supplied and not one of
`{true, false, "optional"}`; when it raises, the result is determined by
the override alone (no extraction from the document happens and no record
is returned), and overrides inside the allowed set never trigger it. -/
theorem build_return_dict_invalid_override (doc : Element) (ruri : String)
    (icr irr cr : Option PyVal) :
    ((∃ v, irr = some v ∧ v ∉ RebootRequired_all) ↔
      ∃ reason, build_return_dict doc ruri icr irr cr =
        Except.error (DRACError.invalidParameterValue reason)) ∧
    (∀ v, irr = some v → v ∉ RebootRequired_all →
      build_return_dict doc ruri icr irr cr =
        Except.error
          (DRACError.invalidParameterValue (invalidRebootMsg v))) := by
  have hbad : ∀ v, irr = some v → v ∉ RebootRequired_all →
      build_return_dict doc ruri icr irr cr =
        Except.error
          (DRACError.invalidParameterValue (invalidRebootMsg v)) := by
    intro v hv hnot
    subst hv
    simp [build_return_dict, hnot]
  refine ⟨⟨?_, ?_⟩, hbad⟩
  · rintro ⟨v, hv, hnot⟩
    exact ⟨invalidRebootMsg v, hbad v hv hnot⟩
  · rintro ⟨reason, hreason⟩
    by_contra hcon
    push_neg at hcon
    have hred : build_return_dict doc ruri icr irr cr =
        buildResultRecord doc ruri icr irr cr := by
      rcases hirr : irr with _ | v
      · rfl
      · have hin := hcon v hirr
        simp [build_return_dict, hin]
    rw [hred] at hreason
    rcases buildResultRecord_error_shape doc ruri icr irr cr _ hreason
      with h | h | h
    · exact absurd (is_commit_required_error_shape doc ruri _ h)
        (by simp)
    · rcases reboot_required_error_shape doc ruri _ h with h2 | ⟨k, h2⟩ <;>
        simp at h2
    · exact absurd (is_reboot_required_error_shape doc ruri _ h)
        (by simp)

/-- Witness for C2: the override `"maybe"` (outside the allowed set) makes
`build_return_dict` fail with `InvalidParameterValue` on a perfectly good
document. -/
theorem build_return_dict_invalid_override_witness :
    build_return_dict (Element.mk "r" "urn:r" none []
        [Element.mk "SetResult" "urn:r" (some "pendingValue") [] [],
         Element.mk "RebootRequired" "urn:r" (some "No") [] []])
      "urn:r" none (some (PyVal.str "maybe")) none =
      Except.error (DRACError.invalidParameterValue
        (invalidRebootMsg (PyVal.str "maybe"))) :=
  (build_return_dict_invalid_override (Element.mk "r" "urn:r" none []
        [Element.mk "SetResult" "urn:r" (some "pendingValue") [] [],
         Element.mk "RebootRequired" "urn:r" (some "No") [] []])
      "urn:r" none (some (PyVal.str "maybe")) none).2
    (PyVal.str "maybe") rfl (by decide)
